import Mathlib

/-!
# Verification of the SkyHire Career-Coach dialogue/context layer

Shallow embedding of `Career-Coach/chatbot/dialogue_manager.py`,
`response_generator.py` and `intent_classifier.py`.

Modelling conventions:
* `datetime` values are `Nat` (microseconds since the UTC epoch); Python's
  `datetime.isoformat` / `datetime.fromisoformat` are an exact inverse pair at
  this precision, so a serialized timestamp is carried as the same `Nat`.
* `uuid.uuid4()` is modelled by a fresh-supply counter: each draw hands out the
  current counter value and increments it, so distinct draws are distinct.
* Python `dict`s keyed by strings are association lists `List (String × _)`;
  Python 3.7+ dict iteration order is insertion order, which the list order
  mirrors.
* Strings are Lean `String`; `x in y` on strings is infix testing on the
  underlying character lists; `str.lower` / `str.strip` use the ASCII-range
  case map and whitespace set (all tokens the code compares against are ASCII).
* The external generative service (`GeminiClient.generate_text`) is a black-box
  oracle parameter `String → Except String String` (`.error` = the call raised).
-/

set_option autoImplicit false
set_option maxRecDepth 10000

namespace SkyHire

/-- `strStarts p l`: `l` starts with the character sequence `p`. -/
def strStarts : List Char → List Char → Bool
  | [], _ => true
  | _ :: _, [] => false
  | a :: as, b :: bs => a == b && strStarts as bs

/-- `strFind p l`: `p` occurs contiguously somewhere inside `l`. -/
def strFind (p : List Char) : List Char → Bool
  | [] => strStarts p []
  | b :: t => strStarts p (b :: t) || strFind p t

/-- Python's `needle in hay` for strings: `needle` occurs as a contiguous
substring of `hay`. -/
def substrB (needle hay : String) : Bool :=
  strFind needle.data hay.data

/-- Python `str.lower()` (ASCII range; characters outside it are unchanged,
matching Python on unaccented input). -/
def pyLower (s : String) : String :=
  ⟨s.data.map Char.toLower⟩

/-- Python `str.strip()` (whitespace set restricted to ASCII whitespace):
drop whitespace from both ends. -/
def pyStrip (s : String) : String :=
  ⟨(((s.data.dropWhile Char.isWhitespace).reverse.dropWhile Char.isWhitespace).reverse)⟩

/-- Python's slice `lst[-n:]` for a nonnegative `n`: the last `n` elements,
except that `n = 0` yields the whole list (`lst[-0:] == lst[0:] == lst`). -/
def pySliceLast {α : Type} (n : Nat) (l : List α) : List α :=
  if n = 0 then l else l.drop (l.length - n)

/-- One entry of `ConversationContext.messages`
(`dialogue_manager.py:91-97`); the `**kwargs` passthrough is not used by any
caller in the repository and is omitted. -/
structure Msg where
  timestamp : Nat
  role : String
  content : String
  intent : Option String
  deriving Repr, DecidableEq

/-- `ConversationContext` (`dialogue_manager.py:75-103`). `entities` and
`slots` are opaque passthrough maps; their values are modelled as strings. -/
structure ConversationContext where
  user_id : String
  session_id : Nat
  created_at : Nat
  last_activity : Nat
  messages : List Msg
  current_intent : Option String
  entities : List (String × String)
  slots : List (String × String)
  max_history : Nat
  deriving Repr, DecidableEq

namespace ConversationContext

/-- `ConversationContext.__init__(user_id, max_history)`
(`dialogue_manager.py:78-87`); `sid` is the fresh uuid draw, `now` the value
of `datetime.utcnow()`. -/
def init (user_id : String) (sid : Nat) (now : Nat) (max_history : Nat := 10) :
    ConversationContext :=
  { user_id := user_id
    session_id := sid
    created_at := now
    last_activity := now
    messages := []
    current_intent := none
    entities := []
    slots := []
    max_history := max_history }

/-- `ConversationContext.add_message(role, content, intent)`
(`dialogue_manager.py:89-103`): append the stamped message, update
`last_activity`, then keep `messages[-max_history:]` if the bound is
exceeded. -/
def add_message (now : Nat) (role content : String) (intent : Option String)
    (c : ConversationContext) : ConversationContext :=
  let message : Msg :=
    { timestamp := now, role := role, content := content, intent := intent }
  let msgs := c.messages ++ [message]
  let msgs := if msgs.length > c.max_history then pySliceLast c.max_history msgs else msgs
  { c with messages := msgs, last_activity := now }

end ConversationContext

/-- One `add_message` call's arguments (for reasoning about call sequences). -/
structure AddCall where
  now : Nat
  role : String
  content : String
  intent : Option String
  deriving Repr, DecidableEq

/-- Run a sequence of `add_message` calls against a context. -/
def runCalls (c : ConversationContext) (calls : List AddCall) : ConversationContext :=
  calls.foldl (fun c a => c.add_message a.now a.role a.content a.intent) c

-- Basic facts about the sliding window.

theorem pySliceLast_length {α : Type} (n : Nat) (l : List α) (hn : n ≠ 0) :
    (pySliceLast n l).length = l.length - (l.length - n) := by
  simp [pySliceLast, hn]

theorem add_message_length_le (c : ConversationContext)
    (hh : 1 ≤ c.max_history) (now : Nat) (role content : String)
    (intent : Option String) :
    (c.add_message now role content intent).messages.length ≤ c.max_history := by
  unfold ConversationContext.add_message
  simp only
  split
  · next hgt =>
    have hne : c.max_history ≠ 0 := by omega
    rw [pySliceLast_length _ _ hne]
    simp only [List.length_append, List.length_cons, List.length_nil] at *
    omega
  · next hle =>
    simp only [List.length_append, List.length_cons, List.length_nil] at *
    omega

theorem add_message_max_history (c : ConversationContext) (now : Nat)
    (role content : String) (intent : Option String) :
    (c.add_message now role content intent).max_history = c.max_history := rfl

theorem runCalls_length_le (h : Nat) (hh : 1 ≤ h) (c : ConversationContext)
    (hc : c.max_history = h) (hlen : c.messages.length ≤ h) (calls : List AddCall) :
    (runCalls c calls).messages.length ≤ h := by
  induction calls generalizing c with
  | nil => simpa [runCalls] using hlen
  | cons a rest ih =>
    simp only [runCalls, List.foldl_cons] at *
    exact ih _ (by simp [ConversationContext.add_message, hc])
      (by
        have := add_message_length_le c (by omega) a.now a.role a.content a.intent
        omega)

/-- The serialized form of a `ConversationContext` as a plain document.
Required keys (`data["..."]` in `from_dict`) are plain fields; keys read with
`data.get(...)` are `Option` (absent = `none`).  Note `to_dict`
(`dialogue_manager.py:109-120`) writes NO `max_history` key, while `from_dict`
(`dialogue_manager.py:122-136`) reads one with default 10. -/
structure StoredContext where
  user_id : String
  session_id : Option Nat
  created_at : Nat
  last_activity : Nat
  current_intent : Option String
  entities : Option (List (String × String))
  slots : Option (List (String × String))
  messages : Option (List Msg)
  max_history : Option Nat
  deriving Repr, DecidableEq

namespace ConversationContext

/-- `ConversationContext.to_dict` (`dialogue_manager.py:109-120`).  The emitted
document has keys `user_id`, `session_id`, `created_at`, `last_activity`,
`current_intent`, `entities`, `slots`, `messages` — and no `max_history`. -/
def to_dict (c : ConversationContext) : StoredContext :=
  { user_id := c.user_id
    session_id := some c.session_id
    created_at := c.created_at
    last_activity := c.last_activity
    current_intent := c.current_intent
    entities := some c.entities
    slots := some c.slots
    messages := some c.messages
    max_history := none }

/-- `ConversationContext.from_dict` (`dialogue_manager.py:122-136`): construct
via `__init__` with `max_history = data.get("max_history", 10)`, then
overwrite each field from the document (`session_id` falls back to a fresh
uuid `fresh`, `messages`/`entities`/`slots` default to empty). -/
def from_dict (fresh : Nat) (d : StoredContext) : ConversationContext :=
  { user_id := d.user_id
    session_id := d.session_id.getD fresh
    created_at := d.created_at
    last_activity := d.last_activity
    current_intent := d.current_intent
    entities := d.entities.getD []
    slots := d.slots.getD []
    messages := d.messages.getD []
    max_history := d.max_history.getD 10 }

end ConversationContext

/-- `UserProfile` (`dialogue_manager.py:15-34`).  Preference values are mixed
literals in Python (`True`, `"fr"`, `"light"`); they are carried opaquely as
strings. -/
structure UserProfile where
  user_id : String
  first_name : Option String
  last_name : Option String
  email : Option String
  role : Option String
  experience_years : Int
  languages : List String
  preferences : List (String × String)
  skills : List String
  certifications : List String
  last_active : Nat
  created_at : Nat
  deriving Repr, DecidableEq

/-- The default preference map set by `UserProfile.__init__`
(`dialogue_manager.py:26-30`). -/
def defaultPreferences : List (String × String) :=
  [("notification_enabled", "True"), ("language", "fr"), ("theme", "light")]

namespace UserProfile

/-- `UserProfile.__init__(user_id)` (`dialogue_manager.py:18-34`); `uid` is
the given id (or the fresh uuid when the argument was `None`), `now` the value
of `datetime.utcnow()`. -/
def init (uid : String) (now : Nat) : UserProfile :=
  { user_id := uid
    first_name := none
    last_name := none
    email := none
    role := none
    experience_years := 0
    languages := ["Français"]
    preferences := defaultPreferences
    skills := []
    certifications := []
    last_active := now
    created_at := now }

end UserProfile

/-- Serialized form of a `UserProfile`: `to_dict` (`dialogue_manager.py:36-51`)
always writes every key; `from_dict` (`dialogue_manager.py:53-73`) reads each
with `data.get(...)` (or a guarded `in data` check for the two timestamps), so
every field is `Option` here with absent = `none`. -/
structure StoredProfile where
  user_id : Option String
  first_name : Option String
  last_name : Option String
  email : Option String
  role : Option String
  experience_years : Option Int
  languages : Option (List String)
  preferences : Option (List (String × String))
  skills : Option (List String)
  certifications : Option (List String)
  last_active : Option Nat
  created_at : Option Nat
  deriving Repr, DecidableEq

namespace UserProfile

/-- `UserProfile.to_dict` (`dialogue_manager.py:36-51`): every field is
written. -/
def to_dict (p : UserProfile) : StoredProfile :=
  { user_id := some p.user_id
    first_name := p.first_name
    last_name := p.last_name
    email := p.email
    role := p.role
    experience_years := some p.experience_years
    languages := some p.languages
    preferences := some p.preferences
    skills := some p.skills
    certifications := some p.certifications
    last_active := some p.last_active
    created_at := some p.created_at }

/-- `UserProfile.from_dict` (`dialogue_manager.py:53-73`): construct via
`cls(data.get("user_id"))` (a missing id draws the fresh uuid `freshId`, and
the constructor stamps both timestamps with `now`), then overwrite from the
document with `.get` defaults; the timestamps are only overwritten when
present (and truthy). -/
def from_dict (now : Nat) (freshId : String) (d : StoredProfile) : UserProfile :=
  { user_id := d.user_id.getD freshId
    first_name := d.first_name
    last_name := d.last_name
    email := d.email
    role := d.role
    experience_years := d.experience_years.getD 0
    languages := d.languages.getD ["Français"]
    preferences := d.preferences.getD []
    skills := d.skills.getD []
    certifications := d.certifications.getD []
    last_active := d.last_active.getD now
    created_at := d.created_at.getD now }

end UserProfile

/-! ## Response generator (`response_generator.py`) -/

/-- The `_debug` block `_format_response` attaches
(`response_generator.py:213-217`). -/
structure DebugInfo where
  intent : String
  context_keys : List String
  response_source : String
  deriving Repr, DecidableEq

/-- A response dictionary as passed around `response_generator.py` (also the
shape of one FAQ entry: `_find_in_faq` returns the entry dict itself and
`_format_response` fills it in place).  `none` = the key is absent.
`keywords` is read with `data.get("keywords", [])`, so absent and `[]`
coincide. -/
structure RespDict where
  text : Option String := none
  suggestions : Option (List String) := none
  source : Option String := none
  intent : Option String := none
  timestamp : Option Nat := none
  keywords : List String := []
  dbg : Option DebugInfo := none
  deriving Repr, DecidableEq

/-- The FAQ table: `none` models `not self.faq or "intents" not in self.faq`
(`response_generator.py:107`); otherwise the `intents` map in insertion
order. -/
def Faq : Type := Option (List (String × RespDict))

/-- Intent normalization (`response_generator.py:112`):
`''.join(c.lower() for c in str(intent) if c.isalnum() or c == '_')`. -/
def normalizeIntent (s : String) : String :=
  ⟨(s.data.filter (fun c => c.isAlphanum || c == '_')).map Char.toLower⟩

/-- `ResponseGenerator._find_in_faq(intent, user_message)`
(`response_generator.py:96-140`): tier 1 exact match on normalized intents,
tier 2 substring match in either direction, tier 3 keyword containment in the
lowercased message; first match in table order wins within each tier. -/
def find_in_faq (faq : Faq) (intent userMessage : String) : Option RespDict :=
  match faq with
  | none => none
  | some entries =>
    let ni := normalizeIntent intent
    match entries.find? (fun e => normalizeIntent e.1 == ni) with
    | some e => some e.2
    | none =>
      match entries.find? (fun e =>
          substrB (normalizeIntent e.1) ni || substrB ni (normalizeIntent e.1)) with
      | some e => some e.2
      | none =>
        let uml := pyLower userMessage
        match entries.find? (fun e =>
            e.2.keywords.any (fun kw => substrB (pyLower kw) uml)) with
        | some e => some e.2
        | none => none

/-- `ResponseGenerator._format_response(response_data, intent, context)`
(`response_generator.py:190-219`).  Note the `source` default
(`response_generator.py:208`): `setdefault("source", "faq" if "faq" in
response_data.get("source", "") else "generated")` — when the key is absent,
`get` yields `""`, so the default is always `"generated"`. -/
def format_response (now : Nat) (rd : RespDict) (intent : String)
    (contextKeys : List String) : RespDict :=
  let text := rd.text.getD "Je ne suis pas sûr de comprendre. Pouvez-vous reformuler ?"
  let sugg := rd.suggestions.getD []
  let defaultSource := if substrB "faq" (rd.source.getD "") then "faq" else "generated"
  let src := rd.source.getD defaultSource
  { rd with
    text := some text
    suggestions := some sugg
    source := some src
    intent := some intent
    timestamp := some now
    dbg := some { intent := intent, context_keys := contextKeys, response_source := src } }

/-- The outcome of one interaction with the external generative service:
`none` = `self.gemini_client is None`; `some (.ok t)` = `generate_text`
returned `t`; `some (.error e)` = the call (or client construction) raised. -/
def GeminiOutcome : Type := Option (Except String String)

/-- `ResponseGenerator._generate_with_gemini(user_message, context)`
(`response_generator.py:142-188`): no client → availability notice (no
`source`); a successful call → stripped text tagged `"gemini"` with a
timestamp (no `intent`, no `suggestions`); a raised call → technical-difficulty
text tagged `"error"` (no `intent`, no `timestamp`). -/
def generate_with_gemini (now : Nat) (g : GeminiOutcome) : RespDict :=
  match g with
  | none =>
      { text := some "Désolé, le service de génération de réponses n'est pas disponible pour le moment."
        suggestions := some ["Voir l'aide", "Contacter le support"] }
  | some (Except.ok t) =>
      { text := some (pyStrip t)
        source := some "gemini"
        timestamp := some now }
  | some (Except.error _) =>
      { text := some "Je rencontre des difficultés techniques pour générer une réponse. Veuillez réessayer plus tard."
        source := some "error"
        suggestions := some ["Réessayer", "Contacter le support"] }

/-- The three canned fallback templates (`response_generator.py:267-271`). -/
def fallbackResponses : List String :=
  [ "Je n'ai pas pu trouver de réponse appropriée dans ma base de connaissances. Pouvez-vous reformuler votre question ou la poser différemment ?"
  , "Je ne suis pas sûr de bien comprendre votre demande. Pourriez-vous la reformuler ?"
  , "Je n'ai pas d'information précise sur ce sujet. Avez-vous une autre question ?" ]

/-- `ResponseGenerator.generate_response(user_message, intent, context)`
(`response_generator.py:221-285`): FAQ first; else, when a client exists, the
Gemini branch — its dict is returned as-is (unformatted) whenever its `text`
is truthy, which covers both the success and the internal-error dict; else the
canned fallback (`randPick` models `random.choice`). -/
def generate_response (faq : Faq) (g : GeminiOutcome) (randPick : Nat)
    (now : Nat) (userMessage intent : String) (contextKeys : List String) :
    RespDict :=
  match find_in_faq faq intent userMessage with
  | some e => format_response now e intent contextKeys
  | none =>
    let viaGemini : Option RespDict :=
      match g with
      | none => none
      | some call =>
        let gr := generate_with_gemini now (some call)
        if (gr.text.getD "") ≠ "" then some gr else none
    match viaGemini with
    | some gr => gr
    | none =>
      format_response now
        { text := some (fallbackResponses.getD (randPick % fallbackResponses.length) "")
          source := some "fallback"
          suggestions := some ["Voir l'aide", "Poser une autre question"] }
        intent contextKeys

/-! ## ChatGPT-style chatbot (`intent_classifier.py`) -/

/-- One entry of `CareerCoachChatbot.conversation_history`. -/
structure HMsg where
  role : String
  content : String
  deriving Repr, DecidableEq

/-- `ChatResponse.confidence` takes only the values `1.0` (dataclass default)
and `0.9` (Gemini branch); floating point is avoided by enumerating them. -/
inductive Confidence where
  | full
  | high
  deriving Repr, DecidableEq

/-- `CareerCoachChatbot.career_context` (`intent_classifier.py:34-48`);
the per-line indentation of the Python triple-quoted literal is normalized
away (no claim depends on this constant's exact characters). -/
def career_context : String :=
  "Tu es un conseiller de carrière expert dans l'aviation civile, spécialisé dans les métiers de Personnel Navigant Commercial (PNC) - hôtesses de l'air et stewards.\nDomaines d'expertise :\n- Compétences requises pour devenir PNC\n- Conseils CV et lettres de motivation pour l'aviation\n- Préparation aux entretiens avec les compagnies aériennes\n- Formations et certifications (SMURF, sécurité, premiers secours)\n- Marché de l'emploi dans l'aviation civile\n- Évolution de carrière (chef de cabine, instructeur, etc.)\nTa mission : Aider les candidats avec des conseils pratiques, personnalisés et précis sur les métiers du PNC.\nSi on te pose des questions hors de ton domaine d'expertise, réponds de manière utile tout en recentrant si possible sur l'aviation, ou explique poliment que tu es spécialisé dans ce domaine."

/-- The `prompt += f"{msg['role']}: {msg['content']}\n"` loop of
`_call_gemini` (`intent_classifier.py:59-61`). -/
def histLines : List HMsg → String
  | [] => ""
  | m :: rest => (m.role ++ ": " ++ m.content ++ "\n") ++ histLines rest

/-- The prompt `_call_gemini` builds (`intent_classifier.py:55-63`): the
domain preamble, the last 6 history entries, then the new message. -/
def buildPrompt (userMessage : String) (ctx : List HMsg) : String :=
  (career_context ++ "\n\n") ++ histLines (pySliceLast 6 ctx) ++
    ("Utilisateur: " ++ userMessage ++ "\nAssistant:")

/-- `CareerCoachChatbot._clean_response` (`intent_classifier.py:81-90`):
strip, remove a leading `Assistant:`/`AI:`/`Bot:` tag plus following
whitespace, and append a final `'.'` when the text does not end in
`.`/`!`/`?`. -/
def dropTag (tag : String) (s : String) : Option String :=
  if strStarts tag.data s.data then
    some ⟨(s.data.drop tag.data.length).dropWhile Char.isWhitespace⟩
  else none

/-- Whether the last character is one of `.`, `!`, `?` (Python
`str.endswith(('.', '!', '?'))`). -/
def endsWithPunct (s : String) : Bool :=
  match s.data.getLast? with
  | some c => c == '.' || c == '!' || c == '?'
  | none => false

/-- See `dropTag`; the alternation `^(Assistant|AI|Bot):\s*` tries the
branches left to right at the start of the (stripped) string. -/
def clean_response (response : String) : String :=
  let r := pyStrip response
  let r := (((dropTag "Assistant:" r).orElse (fun _ => dropTag "AI:" r)).orElse
      (fun _ => dropTag "Bot:" r)).getD r
  if r ≠ "" && !(endsWithPunct r) then r ++ "." else r

/-- `CareerCoachChatbot._call_gemini(user_message, conversation_context)`
(`intent_classifier.py:50-79`): build the prompt, call the service, clean the
answer; any raised error (client construction included) is caught and turned
into a fixed apology.  Returns the prompt as well, as the observable
interaction with the external service. -/
def call_gemini (oracle : String → Except String String) (userMessage : String)
    (ctx : List HMsg) : String × String :=
  let prompt := buildPrompt userMessage ctx
  match oracle prompt with
  | Except.ok r => (clean_response r, prompt)
  | Except.error _ =>
      ("Désolé, une erreur s'est produite lors du traitement de votre demande.", prompt)

/-- `CareerCoachChatbot._is_greeting` (`intent_classifier.py:92-95`). -/
def greetingTokens : List String := ["bonjour", "salut", "hello", "hi", "coucou", "hey"]

/-- `CareerCoachChatbot._is_thanks` (`intent_classifier.py:97-100`). -/
def thanksTokens : List String := ["merci", "thank you", "thanks", "merci beaucoup"]

def is_greeting (text : String) : Bool :=
  greetingTokens.any (fun g => substrB g (pyLower text))

def is_thanks (text : String) : Bool :=
  thanksTokens.any (fun t => substrB t (pyLower text))

/-- The canned greeting reply (`intent_classifier.py:126`). -/
def greetingReply : String :=
  "Bonjour ! 👋 Je suis votre conseiller carrière spécialisé dans l'aviation. Comment puis-je vous aider aujourd'hui pour votre projet de devenir hôtesse de l'air ou steward ?"

/-- The canned thanks reply (`intent_classifier.py:131`). -/
def thanksReply : String :=
  "Je vous en prie ! N'hésitez pas si vous avez d'autres questions sur votre carrière dans l'aviation. 😊"

/-- The empty-message reply (`intent_classifier.py:119`). -/
def emptyReply : String :=
  "Bonjour ! Comment puis-je vous aider dans votre projet de carrière dans l'aviation ?"

/-- The `use_gemini = False` fallback reply (`intent_classifier.py:160`). -/
def noGeminiReply : String :=
  "Je suis un assistant spécialisé dans les carrières de l'aviation. Posez-moi vos questions sur les métiers de PNC, les formations, les entretiens, ou tout autre sujet lié à l'aviation civile !"

/-- Result of `send_message`, together with the updated
`conversation_history` and the observable interaction with the generative
service (`geminiCalled`, and the prompt sent when it was called). -/
structure ChatOut where
  response : String
  confidence : Confidence
  geminiCalled : Bool
  prompt : Option String
  history : List HMsg
  deriving Repr, DecidableEq

/-- `CareerCoachChatbot.send_message(user_message)`
(`intent_classifier.py:102-162`): blank message → canned greeting question;
greeting token → canned greeting; thanks token → canned acknowledgment (all
three without touching history or the service); otherwise, with `use_gemini`,
append the user turn, call Gemini on the last turns, append the reply, and
keep only the last 10 history entries. -/
def send_message (oracle : String → Except String String) (useGemini : Bool)
    (userMessage : String) (hist : List HMsg) : ChatOut :=
  if pyStrip userMessage = "" then
    { response := emptyReply, confidence := Confidence.full
      geminiCalled := false, prompt := none, history := hist }
  else if is_greeting userMessage then
    { response := greetingReply, confidence := Confidence.full
      geminiCalled := false, prompt := none, history := hist }
  else if is_thanks userMessage then
    { response := thanksReply, confidence := Confidence.full
      geminiCalled := false, prompt := none, history := hist }
  else if useGemini then
    let hist1 := hist ++ [{ role := "user", content := userMessage }]
    let cg := call_gemini oracle userMessage hist1
    let hist2 := hist1 ++ [{ role := "assistant", content := cg.1 }]
    let hist3 := if hist2.length > 10 then pySliceLast 10 hist2 else hist2
    { response := cg.1, confidence := Confidence.high
      geminiCalled := true, prompt := some cg.2, history := hist3 }
  else
    { response := noGeminiReply, confidence := Confidence.full
      geminiCalled := false, prompt := none, history := hist }

/-! ## Dialogue manager (`dialogue_manager.py`, class `DialogueManager`) -/

/-- Python-dict lookup on an insertion-ordered association list. -/
def alookup {β : Type} (k : String) (l : List (String × β)) : Option β :=
  (l.find? (fun e => e.1 == k)).map (fun e => e.2)

/-- Python-dict `del` on an insertion-ordered association list. -/
def aremove {β : Type} (k : String) (l : List (String × β)) : List (String × β) :=
  l.filter (fun e => e.1 != k)

/-- Python-dict value overwrite for an existing key. -/
def aset {β : Type} (k : String) (v : β) (l : List (String × β)) : List (String × β) :=
  l.map (fun e => if e.1 == k then (k, v) else e)

/-- The in-memory state of a `DialogueManager`
(`dialogue_manager.py:141-157`): the two maps, the shared chatbot's
conversation history (one `CareerCoachChatbot` for all users), and the
fresh-uuid supply for session ids. -/
structure ManagerState where
  contexts : List (String × ConversationContext)
  profiles : List (String × UserProfile)
  chatHistory : List HMsg
  fresh : Nat
  deriving Repr, DecidableEq

/-- A manager constructed over an empty/unreadable snapshot: both maps empty,
a fresh shared chatbot history. -/
def ManagerState.initial : ManagerState :=
  { contexts := [], profiles := [], chatHistory := [], fresh := 0 }

/-- `DialogueManager.get_or_create_context(user_id)`
(`dialogue_manager.py:208-213`): lazily create with a fresh uuid session id
(the immediate `_save_contexts` is the best-effort disk write modelled by
`save_contexts` below; it does not touch the in-memory state). -/
def get_or_create_context (now : Nat) (u : String) (s : ManagerState) :
    ConversationContext × ManagerState :=
  match alookup u s.contexts with
  | some c => (c, s)
  | none =>
    let c := ConversationContext.init u s.fresh now 10
    (c, { s with contexts := s.contexts ++ [(u, c)], fresh := s.fresh + 1 })

/-- `DialogueManager.get_user_profile(user_id)`
(`dialogue_manager.py:215-220`). -/
def get_user_profile (now : Nat) (u : String) (s : ManagerState) :
    UserProfile × ManagerState :=
  match alookup u s.profiles with
  | some p => (p, s)
  | none =>
    let p := UserProfile.init u now
    (p, { s with profiles := s.profiles ++ [(u, p)] })

/-- `DialogueManager.end_session(user_id)` (`dialogue_manager.py:272-278`):
delete the context entry if present (profiles untouched), report whether
anything was deleted. -/
def end_session (u : String) (s : ManagerState) : Bool × ManagerState :=
  match alookup u s.contexts with
  | some _ => (true, { s with contexts := aremove u s.contexts })
  | none => (false, s)

/-- A Python value handed to `datetime.fromisoformat`: either an actual
`datetime` object or an ISO string (both carrying the instant they denote). -/
inductive TimeVal where
  | dt (t : Nat)
  | str (t : Nat)
  deriving Repr, DecidableEq

/-- `datetime.fromisoformat`: parses a string; on a `datetime` argument Python
raises `TypeError: fromisoformat: argument must be str`. -/
def datetime_fromisoformat : TimeVal → Except String Nat
  | TimeVal.str t => Except.ok t
  | TimeVal.dt _ => Except.error "fromisoformat: argument must be str"

/-- Microseconds per day (`timedelta(days=1)`). -/
def usPerDay : Nat := 86400000000

/-- The `to_remove` list comprehension of `_cleanup_old_contexts`
(`dialogue_manager.py:200-203`): for each context it evaluates
`datetime.fromisoformat(ctx.last_activity) < cutoff`; the first raising entry
aborts the comprehension.  `ctx.last_activity` is a `datetime` object (set by
`__init__`, `add_message` and `from_dict`), hence the `TimeVal.dt`. -/
def collectExpired (cutoff : Nat) :
    List (String × ConversationContext) → Except String (List String)
  | [] => Except.ok []
  | (u, c) :: rest => do
      let t ← datetime_fromisoformat (TimeVal.dt c.last_activity)
      let tail ← collectExpired cutoff rest
      pure (if t < cutoff then u :: tail else tail)

/-- `DialogueManager._cleanup_old_contexts(max_age_days)`
(`dialogue_manager.py:197-206`): compute the cutoff, collect expired user
ids, delete them, then save.  There is no `try`/`except` here, so an error
from `fromisoformat` propagates to the caller. -/
def cleanup_old_contexts (now : Nat) (maxAgeDays : Nat) (s : ManagerState) :
    Except String ManagerState := do
  let cutoff := now - maxAgeDays * usPerDay
  let toRemove ← collectExpired cutoff s.contexts
  pure { s with contexts := toRemove.foldl (fun cs u => aremove u cs) s.contexts }

/-! ## Persistence (`_load_contexts` / `_save_contexts`) -/

/-- The on-disk snapshot document (`dialogue_manager.py:181-191`). -/
structure Snapshot where
  contexts : List (String × StoredContext)
  profiles : List (String × StoredProfile)
  last_updated : Nat
  deriving Repr, DecidableEq

/-- What the disk presents on load: `none` = file does not exist;
`some (.error e)` = the open/read/`json.load`/`from_dict` chain raised;
`some (.ok snap)` = a well-formed parsed snapshot. -/
def DiskRead : Type := Option (Except String Snapshot)

/-- `DialogueManager._load_contexts` (`dialogue_manager.py:159-176`): missing
file leaves the (empty) maps as initialized; any raised error is caught and
both maps are reset to empty; a good snapshot is deserialized entry by entry
(`now` stamps profiles missing timestamps, `freshBase + i` supplies the fresh
uuids `from_dict` may need).  Total: never raises to the caller. -/
def load_contexts (file : DiskRead) (now : Nat) (freshBase : Nat) :
    List (String × ConversationContext) × List (String × UserProfile) :=
  match file with
  | none => ([], [])
  | some (Except.error _) => ([], [])
  | some (Except.ok snap) =>
      ( snap.contexts.enum.map (fun e =>
          (e.2.1, ConversationContext.from_dict (freshBase + e.1) e.2.2))
      , snap.profiles.enum.map (fun e =>
          (e.2.1, UserProfile.from_dict now ("uuid-" ++ toString (freshBase + e.1)) e.2.2)) )

/-- The document `_save_contexts` writes (`dialogue_manager.py:181-191`). -/
def save_doc (s : ManagerState) (now : Nat) : Snapshot :=
  { contexts := s.contexts.map (fun e => (e.1, e.2.to_dict))
    profiles := s.profiles.map (fun e => (e.1, e.2.to_dict))
    last_updated := now }

/-- `DialogueManager._save_contexts` (`dialogue_manager.py:178-195`): build
the document and overwrite the file; a raised write error (`writeOk = false`)
is caught and logged, leaving the old disk content and the in-memory state
untouched.  Total: never raises to the caller. -/
def save_contexts (s : ManagerState) (now : Nat) (disk : Option Snapshot)
    (writeOk : Bool) : ManagerState × Option Snapshot :=
  if writeOk then (s, some (save_doc s now)) else (s, disk)

/-! ## `DialogueManager.process_message` (`dialogue_manager.py:222-270`) -/

/-- The `response` dict `process_message` builds
(`dialogue_manager.py:248-254`): keys `text`, `intent`, `confidence`,
`suggestions`, `source` — and no `timestamp` key. -/
structure PMEnvelope where
  text : Option String := none
  intent : Option String := none
  confidence : Option Confidence := none
  suggestions : Option (List String) := none
  source : Option String := none
  timestamp : Option Nat := none
  deriving Repr, DecidableEq

/-- The composite result of `process_message`
(`dialogue_manager.py:266-270`), plus the observable prompt sent to the
generative service during this call (if any), taken from `ChatOut`. -/
structure PMResult where
  response : PMEnvelope
  context : StoredContext
  user_profile : StoredProfile
  prompt : Option String
  deriving Repr, DecidableEq

/-- `DialogueManager.process_message(user_id, message)`
(`dialogue_manager.py:222-270`).  All users go through the single shared
chatbot (`self.chatbot`), so `s.chatHistory` is global.  `ChatResponse` has
no `intent` attribute, so `getattr(chat_response, 'intent', 'General_Chat')`
is always `"General_Chat"`, and no `suggestions` attribute, so the envelope's
suggestions are `[]`; it does have `confidence`.  The trailing periodic
cleanup (`dialogue_manager.py:263-264`) runs when `len(contexts) % 10 == 0`
and may raise (see `cleanup_old_contexts`); the best-effort disk write is
modelled by `save_contexts` separately. -/
def process_message (oracle : String → Except String String) (now : Nat)
    (u m : String) (s : ManagerState) : Except String (ManagerState × PMResult) := do
  let gp := get_user_profile now u s
  let prof : UserProfile := { gp.1 with last_active := now }
  let s1 : ManagerState := { gp.2 with profiles := aset u prof gp.2.profiles }
  let gc := get_or_create_context now u s1
  let ctx : ConversationContext := gc.1
  let s2 : ManagerState := gc.2
  let chat := send_message oracle true m s2.chatHistory
  let s3 : ManagerState := { s2 with chatHistory := chat.history }
  let ctx : ConversationContext := { ctx with current_intent := some "General_Chat" }
  let ctx := ctx.add_message now "user" m (some "General_Chat")
  let env : PMEnvelope :=
    { text := some chat.response
      intent := some "General_Chat"
      confidence := some chat.confidence
      suggestions := some []
      source := some "generated" }
  let ctx := ctx.add_message now "assistant" (env.text.getD "") (some "General_Chat")
  let s4 := { s3 with contexts := aset u ctx s3.contexts }
  let s5 ←
    if s4.contexts.length % 10 = 0 then cleanup_old_contexts now 30 s4 else pure s4
  pure (s5,
    { response := env
      context := ctx.to_dict
      user_profile := prof.to_dict
      prompt := chat.prompt })

/-! ## Claim C1: the sliding-window invariant -/

/-- C1, counterexample.  The claim quantifies over every bound `h`, but for a
context created with `max_history = 0` the Python truncation
`messages[-self.max_history:]` is `messages[-0:]`, i.e. the whole list, so a
single `add_message` already leaves `len(messages) = 1 > 0`. -/
theorem C1_counterexample :
    ¬ (((ConversationContext.init "u" 0 0 0).add_message 1 "user" "x" none).messages.length
        ≤ (ConversationContext.init "u" 0 0 0).max_history) := by
  decide

/-- The `messages` component of `add_message`, unfolded. -/
theorem add_message_messages (c : ConversationContext) (n : Nat) (r ct : String)
    (i : Option String) :
    (c.add_message n r ct i).messages =
      (if (c.messages ++ [({ timestamp := n, role := r, content := ct, intent := i } : Msg)]).length
            > c.max_history
       then pySliceLast c.max_history
            (c.messages ++ [({ timestamp := n, role := r, content := ct, intent := i } : Msg)])
       else c.messages ++ [({ timestamp := n, role := r, content := ct, intent := i } : Msg)]) :=
  rfl

/-- C1, amended: for every `ConversationContext` created with bound
`max_history = h ≥ 1`, after every `add_message` call in any sequence of
calls `len(messages) ≤ h` holds, and whenever an append would exceed the
bound (the list already holds at least `h` messages) the result keeps exactly
the `h` most recent entries, evicting from the front. -/
theorem C1_sliding_window (u : String) (sid now h : Nat) (hh : 1 ≤ h) :
    (∀ calls : List AddCall,
      (runCalls (ConversationContext.init u sid now h) calls).messages.length ≤ h) ∧
    (∀ (c : ConversationContext) (n : Nat) (r ct : String) (i : Option String),
      c.max_history = h → h ≤ c.messages.length →
      (c.add_message n r ct i).messages
          = (c.messages ++ [({ timestamp := n, role := r, content := ct, intent := i } : Msg)]).drop
              (c.messages.length + 1 - h) ∧
      (c.add_message n r ct i).messages.length = h) := by
  constructor
  · intro calls
    exact runCalls_length_le h hh _ rfl (by simp [ConversationContext.init]) calls
  · intro c n r ct i hc hlen
    have hne : c.max_history ≠ 0 := by omega
    have hlen2 :
        (c.messages ++ [({ timestamp := n, role := r, content := ct, intent := i } : Msg)]).length
          = c.messages.length + 1 := by simp
    have hgt :
        (c.messages ++ [({ timestamp := n, role := r, content := ct, intent := i } : Msg)]).length
          > c.max_history := by omega
    constructor
    · rw [add_message_messages, if_pos hgt]
      unfold pySliceLast
      rw [if_neg hne, hlen2, hc]
    · rw [add_message_messages, if_pos hgt]
      unfold pySliceLast
      rw [if_neg hne]
      simp only [List.length_drop, hlen2, hc]
      omega

/-- C1, witness: the amended theorem at `h = 2` with three concrete calls. -/
theorem C1_witness :
    (runCalls (ConversationContext.init "u" 0 0 2)
        [⟨1, "user", "a", none⟩, ⟨2, "user", "b", none⟩, ⟨3, "user", "c", none⟩]).messages.length
      ≤ 2 ∧
    ((((ConversationContext.init "u" 0 0 2).add_message 1 "user" "a" none).add_message
        2 "user" "b" none).add_message 3 "user" "c" none).messages.length = 2 := by
  refine ⟨(C1_sliding_window "u" 0 0 2 (by decide)).1 _, ?_⟩
  have h2 := (C1_sliding_window "u" 0 0 2 (by decide)).2
    (((ConversationContext.init "u" 0 0 2).add_message 1 "user" "a" none).add_message 2 "user" "b" none)
    3 "user" "c" none (by decide) (by decide)
  exact h2.2

/-! ## Claim C2: serialization round trip -/

/-- A concrete context with a non-default bound (`max_history = 5`). -/
def ctxC2 : ConversationContext :=
  { user_id := "u"
    session_id := 3
    created_at := 5
    last_activity := 9
    messages := [{ timestamp := 7, role := "user", content := "hello", intent := some "X" }]
    current_intent := some "X"
    entities := [("k", "v")]
    slots := []
    max_history := 5 }

/-- C2, counterexample: `to_dict` writes no `max_history` key, so
`from_dict(to_dict(x))` resets the bound to the default 10 and does not
reproduce every field of a context whose bound is 5. -/
theorem C2_counterexample :
    ConversationContext.from_dict 99 ctxC2.to_dict ≠ ctxC2 := by
  decide

/-- C2, amended: `UserProfile` round-trips exactly (every field, timestamps
at full sub-second precision); `ConversationContext` round-trips on every
field except `max_history`, which resets to the default 10 because `to_dict`
omits it — and since the document never carries `max_history`, re-serializing
the round-tripped context yields an identical document. -/
theorem C2_round_trip :
    (∀ (now : Nat) (fid : String) (p : UserProfile),
      UserProfile.from_dict now fid p.to_dict = p) ∧
    (∀ (fresh : Nat) (c : ConversationContext),
      ConversationContext.from_dict fresh c.to_dict = { c with max_history := 10 } ∧
      (ConversationContext.from_dict fresh c.to_dict).to_dict = c.to_dict) := by
  refine ⟨fun now fid p => ?_, fun fresh c => ⟨?_, ?_⟩⟩
  · cases p
    simp [UserProfile.from_dict, UserProfile.to_dict]
  · cases c
    simp [ConversationContext.from_dict, ConversationContext.to_dict]
  · cases c
    simp [ConversationContext.from_dict, ConversationContext.to_dict]

/-! ## Claim C10: `from_dict` does not truncate -/

/-- A stored context document whose `messages` list is longer (11) than the
default bound (10), with no `max_history` key — e.g. a snapshot written by an
older run or edited on disk. -/
def storedC10 : StoredContext :=
  { user_id := "u"
    session_id := some 1
    created_at := 0
    last_activity := 0
    current_intent := none
    entities := none
    slots := none
    messages := some (List.replicate 11 { timestamp := 0, role := "user", content := "m", intent := none })
    max_history := none }

/-- C10: `from_dict` copies the stored messages verbatim (no truncation), so
a deserialized context can have `len(messages) > max_history` — witnessed by
an 11-message document against the default bound 10 — and the sliding-window
bound is re-established by the next `add_message` call (for any positive
bound). -/
theorem C10_from_dict_no_truncation :
    (∀ (fresh : Nat) (d : StoredContext),
      (ConversationContext.from_dict fresh d).messages = d.messages.getD []) ∧
    ((ConversationContext.from_dict 0 storedC10).messages.length = 11 ∧
      (ConversationContext.from_dict 0 storedC10).max_history = 10) ∧
    (∀ (c : ConversationContext) (n : Nat) (r ct : String) (i : Option String),
      1 ≤ c.max_history →
      (c.add_message n r ct i).messages.length ≤ c.max_history) := by
  refine ⟨fun fresh d => rfl, ⟨by decide, by decide⟩, fun c n r ct i hh => ?_⟩
  exact add_message_length_le c hh n r ct i

/-- C10, witness: the deserialized 11-message context regains the bound on
the next `add_message`. -/
theorem C10_witness :
    ((ConversationContext.from_dict 0 storedC10).add_message 1 "user" "x" none).messages.length
      ≤ (ConversationContext.from_dict 0 storedC10).max_history := by
  exact C10_from_dict_no_truncation.2.2 _ 1 "user" "x" none (by decide)

/-! ## Claim C3: cleanup of old contexts -/

/-- A manager holding one context whose `last_activity` lies 31 days in the
past of the cleanup instant `40 * usPerDay`. -/
def mgrC3 : ManagerState :=
  { contexts := [("u",
      { ConversationContext.init "u" 0 (9 * usPerDay) 10 with last_activity := 9 * usPerDay })]
    profiles := [("u", UserProfile.init "u" (9 * usPerDay))]
    chatHistory := []
    fresh := 1 }

/-- C3: on any manager with at least one context, `_cleanup_old_contexts`
raises instead of removing anything: it applies `datetime.fromisoformat` to
`ctx.last_activity`, which is a `datetime` object (never a string), so Python
raises `TypeError` on the very first context — here a context 31 days stale
that the claim says would be removed.  (The second conjunct checks the input
really is older than the 30-day cutoff.) -/
theorem C3_cleanup_raises :
    cleanup_old_contexts (40 * usPerDay) 30 mgrC3
        = Except.error "fromisoformat: argument must be str" ∧
    9 * usPerDay < 40 * usPerDay - 30 * usPerDay := by
  refine ⟨rfl, ?_⟩
  simp [usPerDay]

/-! ## Claim C4: FAQ hits and the `source` tag -/

/-- The FAQ table from the spec's scenarios: one `CV_Advice` entry with
response text and keywords, and (like every entry in the shipped FAQ shape)
no `source` key of its own. -/
def faqC4 : Faq :=
  some [("CV_Advice",
    { text := some "Voici des conseils CV...", keywords := ["cv", "résumé"] })]

/-- C4: on both spec scenarios — tier-1 exact intent match (`"CV_Advice"`)
and tier-3 keyword match (`"cv"` in the lowercased message) — the pipeline
returns the entry's exact text, but the `source` tag is `"generated"`, not
`"faq"`: in `_format_response` (`response_generator.py:208`) the default
expression `"faq" if "faq" in response_data.get("source", "") else
"generated"` evaluates `get` on the absent key to `""`, so the `"faq"` branch
is unreachable. -/
theorem C4_faq_source_generated :
    ((generate_response faqC4 none 0 0 "Comment faire mon CV ?" "CV_Advice" []).text
        = some "Voici des conseils CV..." ∧
      (generate_response faqC4 none 0 0 "Comment faire mon CV ?" "CV_Advice" []).source
        = some "generated") ∧
    ((generate_response faqC4 none 0 0 "j'ai besoin d'aide pour mon cv" "UNKNOWN_INTENT" []).text
        = some "Voici des conseils CV..." ∧
      (generate_response faqC4 none 0 0 "j'ai besoin d'aide pour mon cv" "UNKNOWN_INTENT" []).source
        = some "generated") := by
  refine ⟨⟨?_, ?_⟩, ⟨?_, ?_⟩⟩ <;> decide

/-! ## Claim C7: persistence is total and best-effort -/

/-- C7: loading never raises — a missing file, and any raised
decoding/I-O/deserialization error, both leave the two in-memory maps empty —
and saving never raises — it returns the state unchanged whatever the write
outcome, and on a failed write the old disk content survives. -/
theorem C7_persistence_best_effort :
    (∀ (now freshBase : Nat), load_contexts none now freshBase = ([], [])) ∧
    (∀ (e : String) (now freshBase : Nat),
      load_contexts (some (Except.error e)) now freshBase = ([], [])) ∧
    (∀ (s : ManagerState) (now : Nat) (disk : Option Snapshot) (writeOk : Bool),
      (save_contexts s now disk writeOk).1 = s) ∧
    (∀ (s : ManagerState) (now : Nat) (disk : Option Snapshot),
      (save_contexts s now disk false).2 = disk) := by
  refine ⟨fun _ _ => rfl, fun _ _ _ => rfl, fun s now disk w => ?_, fun _ _ _ => rfl⟩
  unfold save_contexts
  split <;> rfl

/-! ## Claim C8: session lifecycle -/

theorem alookup_cons {β : Type} (u : String) (e : String × β) (t : List (String × β)) :
    alookup u (e :: t) = if e.1 == u then some e.2 else alookup u t := by
  by_cases he : (e.1 == u) = true
  · simp [alookup, List.find?_cons_of_pos _ he, he]
  · rw [if_neg he]
    have hf : (e.1 == u) = false := by
      cases hb : (e.1 == u) with
      | true => exact absurd hb he
      | false => rfl
    simp [alookup, List.find?_cons, hf]

theorem alookup_append_single {β : Type} (u : String) (v : β)
    (l : List (String × β)) (h : alookup u l = none) :
    alookup u (l ++ [(u, v)]) = some v := by
  induction l with
  | nil => simp [alookup]
  | cons e t ih =>
    rw [alookup_cons] at h
    rw [List.cons_append, alookup_cons]
    by_cases he : (e.1 == u) = true
    · rw [if_pos he] at h
      simp at h
    · rw [if_neg he] at h
      rw [if_neg he]
      exact ih h

theorem alookup_aremove_self {β : Type} (u : String) (l : List (String × β)) :
    alookup u (aremove u l) = none := by
  unfold alookup aremove
  rw [Option.map_eq_none']
  rw [List.find?_eq_none]
  intro e he
  have h2 := (List.mem_filter.mp he).2
  simp only [bne, Bool.not_eq_true'] at h2
  simp [h2]

/-- C8: two `get_or_create_context(u)` calls with no intervening
`end_session(u)` return the same `session_id`; `end_session(u)` deletes `u`'s
context entry, keeps the profiles, and returns true exactly when a context
existed (so an immediately repeated call returns false); and after
`end_session(u)` the next `get_or_create_context(u)` yields a fresh context
whose `session_id` differs from the deleted one.  The hypothesis is the
fresh-supply invariant every reachable manager satisfies: each stored
session id was drawn from the supply, hence is below the next fresh value. -/
theorem C8_session_lifecycle (s : ManagerState) (u : String) (now now2 : Nat)
    (hinv : ∀ e ∈ s.contexts, e.2.session_id < s.fresh) :
    ((get_or_create_context now2 u (get_or_create_context now u s).2).1.session_id
        = (get_or_create_context now u s).1.session_id) ∧
    ((end_session u s).1 = (alookup u s.contexts).isSome ∧
      (end_session u s).2.profiles = s.profiles ∧
      (end_session u (end_session u s).2).1 = false) ∧
    (∀ c, alookup u s.contexts = some c →
      (get_or_create_context now2 u (end_session u s).2).1.session_id ≠ c.session_id) := by
  refine ⟨?_, ⟨?_, ?_, ?_⟩, ?_⟩
  · cases h : alookup u s.contexts with
    | some c => simp [get_or_create_context, h]
    | none =>
      simp only [get_or_create_context, h]
      rw [alookup_append_single u _ _ h]
  · cases h : alookup u s.contexts with
    | some c => simp [end_session, h]
    | none => simp [end_session, h]
  · cases h : alookup u s.contexts with
    | some c => simp [end_session, h]
    | none => simp [end_session, h]
  · cases h : alookup u s.contexts with
    | some c => simp [end_session, h, alookup_aremove_self]
    | none => simp [end_session, h]
  · intro c hc
    obtain ⟨e0, hfind, he0⟩ := Option.map_eq_some'.mp hc
    have hmem : e0 ∈ s.contexts := List.mem_of_find?_eq_some hfind
    have hlt : c.session_id < s.fresh := he0 ▸ hinv e0 hmem
    simp only [end_session, hc]
    simp only [get_or_create_context, alookup_aremove_self, ConversationContext.init]
    omega

/-- A concrete manager for the C8 witness: one live session with id 0, fresh
supply at 1. -/
def mgrC8 : ManagerState :=
  { contexts := [("u", ConversationContext.init "u" 0 0 10)]
    profiles := [("u", UserProfile.init "u" 0)]
    chatHistory := []
    fresh := 1 }

/-- C8, witness: the lifecycle theorem applied to `mgrC8`. -/
theorem C8_witness :
    ((get_or_create_context 6 "u" (get_or_create_context 5 "u" mgrC8).2).1.session_id
        = (get_or_create_context 5 "u" mgrC8).1.session_id) ∧
    ((get_or_create_context 6 "u" (end_session "u" mgrC8).2).1.session_id
        ≠ (ConversationContext.init "u" 0 0 10).session_id) :=
  ⟨(C8_session_lifecycle mgrC8 "u" 5 6 (by decide)).1,
   (C8_session_lifecycle mgrC8 "u" 5 6 (by decide)).2.2
      (ConversationContext.init "u" 0 0 10) (by decide)⟩

/-! ## Claim C5: response envelopes -/

theorem except_bind_ok {α β : Type} (x : Except String α) (f : α → Except String β)
    (b : β) (h : x >>= f = Except.ok b) :
    ∃ a, x = Except.ok a ∧ f a = Except.ok b := by
  cases x with
  | error e => simp [Bind.bind, Except.bind] at h
  | ok a => exact ⟨a, rfl, by simpa [Bind.bind, Except.bind] using h⟩

theorem format_response_fields (now : Nat) (rd : RespDict) (intent : String)
    (keys : List String) :
    (format_response now rd intent keys).text.isSome = true ∧
    (format_response now rd intent keys).intent = some intent ∧
    (format_response now rd intent keys).suggestions.isSome = true ∧
    (format_response now rd intent keys).timestamp = some now ∧
    (format_response now rd intent keys).source.isSome = true := by
  simp [format_response]

/-- C5, counterexample: with no FAQ match and the generative service
returning text, `generate_response` hands back the raw Gemini dict: its
`source` is `"gemini"` — none of `"faq"`, `"generated"`, `"fallback"`,
`"error"` — and it has no `intent` and no `suggestions` keys. -/
theorem C5_counterexample :
    (generate_response none (some (Except.ok "Réponse générée.")) 0 7 "une question" "X" []).intent
        = none ∧
    (generate_response none (some (Except.ok "Réponse générée.")) 0 7 "une question" "X" []).suggestions
        = none ∧
    (generate_response none (some (Except.ok "Réponse générée.")) 0 7 "une question" "X" []).source
        = some "gemini" ∧
    (generate_response none (some (Except.ok "Réponse générée.")) 0 7 "une question" "X" []).source
        ≠ some "faq" ∧
    (generate_response none (some (Except.ok "Réponse générée.")) 0 7 "une question" "X" []).source
        ≠ some "generated" ∧
    (generate_response none (some (Except.ok "Réponse générée.")) 0 7 "une question" "X" []).source
        ≠ some "fallback" ∧
    (generate_response none (some (Except.ok "Réponse générée.")) 0 7 "une question" "X" []).source
        ≠ some "error" := by
  refine ⟨?_, ?_, ?_, ?_, ?_, ?_, ?_⟩ <;> decide

/-- C5, amended: every `generate_response` result has `text` and `source`
set, and is either a fully normalized envelope (`intent`, `suggestions`,
`timestamp` all present — the FAQ and canned-fallback stages) or a raw
generative-stage dict whose `source` is `"gemini"` (success) or `"error"`
(caught failure); the `process_message` envelope has `text`, `intent`,
`suggestions` and `source = "generated"` but no `timestamp` key. -/
theorem C5_envelope :
    (∀ (faq : Faq) (g : GeminiOutcome) (randPick now : Nat) (m i : String)
        (keys : List String),
      ((generate_response faq g randPick now m i keys).text.isSome = true ∧
        (generate_response faq g randPick now m i keys).source.isSome = true) ∧
      ((generate_response faq g randPick now m i keys).source = some "gemini" ∨
        (generate_response faq g randPick now m i keys).source = some "error" ∨
        ((generate_response faq g randPick now m i keys).intent = some i ∧
          (generate_response faq g randPick now m i keys).suggestions.isSome = true ∧
          (generate_response faq g randPick now m i keys).timestamp = some now))) ∧
    (∀ (oracle : String → Except String String) (now : Nat) (u m : String)
        (s s' : ManagerState) (res : PMResult),
      process_message oracle now u m s = Except.ok (s', res) →
      (res.response.text.isSome = true ∧
        res.response.intent = some "General_Chat" ∧
        res.response.suggestions = some [] ∧
        res.response.source = some "generated" ∧
        res.response.timestamp = none)) := by
  constructor
  · intro faq g randPick now m i keys
    unfold generate_response
    cases hf : find_in_faq faq i m with
    | some e =>
      simp [format_response]
    | none =>
      cases g with
      | none => simp [format_response]
      | some call =>
        cases call with
        | ok t =>
          by_cases ht : pyStrip t = ""
          · simp [generate_with_gemini, ht, format_response]
          · simp [generate_with_gemini, ht, format_response]
        | error e =>
          simp [generate_with_gemini, format_response]
  · intro oracle now u m s s' res h
    simp only [process_message] at h
    split at h <;>
      (obtain ⟨s5, hx, h2⟩ := except_bind_ok _ _ _ h
       simp only [pure, Except.pure, Except.ok.injEq] at h2
       obtain ⟨h3, h4⟩ := (Prod.mk.injEq _ _ _ _).mp h2
       subst h4
       simp)

/-- A concrete generative-service oracle for witnesses. -/
def o0 : String → Except String String := fun _ => Except.ok "Réponse générée."

/-- Default pair, used only to destructure a known-`ok` run. -/
def pmFallbackPair : ManagerState × PMResult :=
  (ManagerState.initial,
   { response := {}
     context := (ConversationContext.init "" 0 0 10).to_dict
     user_profile := (UserProfile.init "" 0).to_dict
     prompt := none })

/-- A concrete successful `process_message` run. -/
def pmRunC5 : Except String (ManagerState × PMResult) :=
  process_message o0 5 "u" "une question métier" ManagerState.initial

def pmOkC5 : ManagerState × PMResult := pmRunC5.toOption.getD pmFallbackPair

/-- C5, witness: the envelope shape on a concrete successful run. -/
theorem C5_witness :
    pmOkC5.2.response.source = some "generated" ∧
    pmOkC5.2.response.timestamp = none :=
  have h : process_message o0 5 "u" "une question métier" ManagerState.initial
      = Except.ok (pmOkC5.1, pmOkC5.2) := by rfl
  ⟨(C5_envelope.2 o0 5 "u" "une question métier" ManagerState.initial
      pmOkC5.1 pmOkC5.2 h).2.2.2.1,
   (C5_envelope.2 o0 5 "u" "une question métier" ManagerState.initial
      pmOkC5.1 pmOkC5.2 h).2.2.2.2⟩

/-! ## Claim C6: greeting/thanks shortcuts -/

theorem mem_of_strStarts (p l : List Char) (h : strStarts p l = true) {c : Char}
    (hc : c ∈ p) : c ∈ l := by
  induction p generalizing l with
  | nil => cases hc
  | cons a as ih =>
    cases l with
    | nil => simp [strStarts] at h
    | cons b bs =>
      simp only [strStarts, Bool.and_eq_true, beq_iff_eq] at h
      rcases List.mem_cons.mp hc with hca | hcas
      · exact List.mem_cons.mpr (Or.inl (hca.trans h.1))
      · exact List.mem_cons.mpr (Or.inr (ih bs h.2 hcas))

theorem mem_of_strFind (p l : List Char) (h : strFind p l = true) {c : Char}
    (hc : c ∈ p) : c ∈ l := by
  induction l with
  | nil =>
    cases p with
    | nil => cases hc
    | cons a as => simp [strFind, strStarts] at h
  | cons b t ih =>
    simp only [strFind, Bool.or_eq_true] at h
    rcases h with h | h
    · exact mem_of_strStarts p (b :: t) h hc
    · exact List.mem_cons.mpr (Or.inr (ih h))

theorem toLower_of_whitespace (c : Char) (h : c.isWhitespace = true) :
    c.toLower = c := by
  have h' : ((c = ' ' ∨ c = '\t') ∨ c = '\x0d') ∨ c = '\n' := by
    simpa [Char.isWhitespace, Bool.or_eq_true, decide_eq_true_eq] using h
  rcases h' with ((h' | h') | h') | h' <;> (subst h'; decide)

theorem all_whitespace_of_pyStrip_empty (m : String) (h : pyStrip m = "") :
    ∀ c ∈ m.data, c.isWhitespace = true := by
  have hdata : (((m.data.dropWhile Char.isWhitespace).reverse.dropWhile
      Char.isWhitespace).reverse) = [] := congrArg String.data h
  rw [List.reverse_eq_nil_iff, List.dropWhile_eq_nil_iff] at hdata
  have hdrop : ∀ c ∈ m.data.dropWhile Char.isWhitespace, c.isWhitespace = true := by
    intro c hcm
    exact hdata c (List.mem_reverse.mpr hcm)
  intro c hcm
  have hcm' : c ∈ m.data.takeWhile Char.isWhitespace ++ m.data.dropWhile Char.isWhitespace := by
    rw [List.takeWhile_append_dropWhile]
    exact hcm
  rcases List.mem_append.mp hcm' with hk | hk
  · exact List.mem_takeWhile_imp hk
  · exact hdrop c hk

theorem pyStrip_ne_empty_of_substr (tok m : String)
    (htok : tok.data.any (fun c => !c.isWhitespace) = true)
    (h : substrB tok (pyLower m) = true) : ¬ pyStrip m = "" := by
  intro hstrip
  obtain ⟨c, hc, hnw⟩ := List.any_eq_true.mp htok
  have hcl : c ∈ (pyLower m).data := mem_of_strFind tok.data (pyLower m).data h hc
  obtain ⟨c0, hc0, hmap⟩ := List.mem_map.mp (by simpa [pyLower] using hcl)
  have hws : c0.isWhitespace = true := all_whitespace_of_pyStrip_empty m hstrip c0 hc0
  rw [← hmap, toLower_of_whitespace c0 hws, hws] at hnw
  simp at hnw

/-- C6, counterexample: `"bonjour merci"` contains the thanks token
`"merci"`, yet `send_message` returns the canned greeting, not the canned
acknowledgment — the greeting check runs first. -/
theorem C6_counterexample :
    is_thanks "bonjour merci" = true ∧
    (send_message o0 true "bonjour merci" []).response = greetingReply ∧
    (send_message o0 true "bonjour merci" []).response ≠ thanksReply := by
  refine ⟨by decide, by decide, by decide⟩

/-- C6, amended: a message containing a greeting token (case-insensitive
substring) always gets the fixed canned greeting with the generative service
never invoked, regardless of the service oracle and of `use_gemini`; a
message containing a thanks token **and no greeting token** gets the fixed
canned acknowledgment, likewise without any generative call. -/
theorem C6_shortcuts (oracle : String → Except String String) (useG : Bool)
    (m : String) (hist : List HMsg) :
    (is_greeting m = true →
      send_message oracle useG m hist =
        { response := greetingReply, confidence := Confidence.full
          geminiCalled := false, prompt := none, history := hist }) ∧
    (is_thanks m = true → is_greeting m = false →
      send_message oracle useG m hist =
        { response := thanksReply, confidence := Confidence.full
          geminiCalled := false, prompt := none, history := hist }) := by
  constructor
  · intro hg
    obtain ⟨tok, htokmem, hp⟩ := List.any_eq_true.mp hg
    have hnb : ∀ g ∈ greetingTokens, (g.data.any (fun c => !c.isWhitespace)) = true := by
      decide
    have hb : ¬ pyStrip m = "" := pyStrip_ne_empty_of_substr tok m (hnb tok htokmem) hp
    unfold send_message
    rw [if_neg hb, if_pos hg]
  · intro ht hg
    obtain ⟨tok, htokmem, hp⟩ := List.any_eq_true.mp ht
    have hnb : ∀ g ∈ thanksTokens, (g.data.any (fun c => !c.isWhitespace)) = true := by
      decide
    have hb : ¬ pyStrip m = "" := pyStrip_ne_empty_of_substr tok m (hnb tok htokmem) hp
    unfold send_message
    rw [if_neg hb, if_neg (by simp [hg]), if_pos ht]

/-- C6, witness: the shortcut theorem at `"bonjour"` and `"merci"`. -/
theorem C6_witness :
    send_message o0 true "bonjour" [] =
      { response := greetingReply, confidence := Confidence.full
        geminiCalled := false, prompt := none, history := [] } ∧
    send_message o0 false "merci" [] =
      { response := thanksReply, confidence := Confidence.full
        geminiCalled := false, prompt := none, history := [] } :=
  ⟨(C6_shortcuts o0 true "bonjour" []).1 (by decide),
   (C6_shortcuts o0 false "merci" []).2 (by decide) (by decide)⟩

/-! ## Claim C9: the shared chatbot history leaks across users -/

theorem strFind_nil_left (l : List Char) : strFind [] l = true := by
  cases l with
  | nil => rfl
  | cons b t => simp [strFind, strStarts]

theorem strStarts_self_append (p r : List Char) : strStarts p (p ++ r) = true := by
  induction p with
  | nil => rfl
  | cons a as ih => simp [strStarts, ih]

theorem strFind_self_append (p y : List Char) : strFind p (p ++ y) = true := by
  cases p with
  | nil => exact strFind_nil_left y
  | cons a as =>
    have h1 : strStarts (a :: as) (a :: (as ++ y)) = true := by
      simpa using strStarts_self_append (a :: as) y
    simp [strFind, h1]

theorem strFind_append_of_right (x r p : List Char) (h : strFind p r = true) :
    strFind p (x ++ r) = true := by
  induction x with
  | nil => simpa using h
  | cons b t ih => simp [strFind, ih]

theorem strFind_cons_of (c : Char) (r p : List Char) (h : strFind p r = true) :
    strFind p (c :: r) = true := by
  simp [strFind, h]

theorem aset_length {β : Type} (k : String) (v : β) (l : List (String × β)) :
    (aset k v l).length = l.length := by
  simp [aset]

theorem alookup_none_of_keys {β : Type} (k : String) (l : List (String × β))
    (h : ¬ k ∈ l.map Prod.fst) : alookup k l = none := by
  induction l with
  | nil => rfl
  | cons e t ih =>
    rw [alookup_cons]
    simp only [List.map_cons, List.mem_cons] at h
    push_neg at h
    by_cases he : (e.1 == k) = true
    · exact absurd ((by simpa using he : e.1 = k)).symm h.1
    · rw [if_neg he]
      exact ih h.2

theorem call_gemini_snd (o : String → Except String String) (m : String)
    (ctx : List HMsg) : (call_gemini o m ctx).2 = buildPrompt m ctx := by
  unfold call_gemini
  cases h : o (buildPrompt m ctx) <;> simp [h]

/-- `send_message` on the generative path, fully unfolded. -/
theorem send_message_gen (o : String → Except String String) (m : String)
    (hist : List HMsg) (hb : ¬ pyStrip m = "") (hg : is_greeting m = false)
    (ht : is_thanks m = false) :
    send_message o true m hist =
      { response := (call_gemini o m (hist ++ [HMsg.mk "user" m])).1
        confidence := Confidence.high
        geminiCalled := true
        prompt := some (call_gemini o m (hist ++ [HMsg.mk "user" m])).2
        history :=
          if (hist ++ [HMsg.mk "user" m] ++
              [HMsg.mk "assistant" (call_gemini o m (hist ++ [HMsg.mk "user" m])).1]).length
              > 10
          then pySliceLast 10 (hist ++ [HMsg.mk "user" m] ++
              [HMsg.mk "assistant" (call_gemini o m (hist ++ [HMsg.mk "user" m])).1])
          else hist ++ [HMsg.mk "user" m] ++
              [HMsg.mk "assistant" (call_gemini o m (hist ++ [HMsg.mk "user" m])).1] } := by
  unfold send_message
  rw [if_neg hb]
  rw [if_neg (show ¬ is_greeting m = true by simp [hg])]
  rw [if_neg (show ¬ is_thanks m = true by simp [ht])]
  rfl

theorem aset_keys {β : Type} (k : String) (v : β) (l : List (String × β)) :
    (aset k v l).map Prod.fst = l.map Prod.fst := by
  unfold aset
  rw [List.map_map]
  apply List.map_congr_left
  intro e he
  by_cases h : (e.1 == k) = true
  · simp [Function.comp, (by simpa using h : e.1 = k)]
  · simp [Function.comp, h]

/-- `process_message` on the generative path: it succeeds (the periodic
cleanup is skipped because the resulting context count is not a multiple of
10), the prompt sent to the service is built from the manager's single shared
`chatHistory` plus the new user turn, the shared history gains this exchange,
and the context map gains at most the key `u`. -/
theorem process_message_gen (o : String → Except String String) (now : Nat)
    (u m : String) (s : ManagerState)
    (hb : ¬ pyStrip m = "") (hg : is_greeting m = false) (ht : is_thanks m = false)
    (hmod : (if (alookup u s.contexts).isSome then s.contexts.length
             else s.contexts.length + 1) % 10 ≠ 0) :
    ∃ s' r, process_message o now u m s = Except.ok (s', r) ∧
      r.prompt = some (buildPrompt m (s.chatHistory ++ [HMsg.mk "user" m])) ∧
      s'.chatHistory =
        (if (s.chatHistory ++ [HMsg.mk "user" m] ++
            [HMsg.mk "assistant" (call_gemini o m (s.chatHistory ++ [HMsg.mk "user" m])).1]).length
            > 10
         then pySliceLast 10 (s.chatHistory ++ [HMsg.mk "user" m] ++
            [HMsg.mk "assistant" (call_gemini o m (s.chatHistory ++ [HMsg.mk "user" m])).1])
         else s.chatHistory ++ [HMsg.mk "user" m] ++
            [HMsg.mk "assistant" (call_gemini o m (s.chatHistory ++ [HMsg.mk "user" m])).1]) ∧
      s'.contexts.map Prod.fst = s.contexts.map Prod.fst ++
        (if (alookup u s.contexts).isSome then [] else [u]) := by
  cases hp : alookup u s.profiles <;> cases hc : alookup u s.contexts <;>
    (unfold process_message
     simp only [get_user_profile, get_or_create_context, hp, hc]
     rw [send_message_gen o m s.chatHistory hb hg ht]
     rw [if_neg (show ¬ _ % 10 = 0 by
       simp only [aset_length, List.length_append, List.length_cons, List.length_nil]
       simpa [hc] using hmod)]
     simp only [Bind.bind, Except.bind, pure, Except.pure]
     refine ⟨_, _, rfl, ?_, ?_, ?_⟩
     · simp [call_gemini_snd]
     · simp
     · simp [aset_keys, hc])

/-- C9: all users share the one `CareerCoachChatbot` and its global
`conversation_history`.  After `process_message(u1, m1)` takes the generative
path, a `process_message(u2, m2)` for a different user builds its prompt from
that same shared history — `m1` appears verbatim inside `u2`'s prompt — and
two runs that differ only in `u1`'s prior traffic send different prompts for
the same `(u2, m2)`. -/
theorem C9_shared_history (o : String → Except String String)
    (u1 u2 m1 m2 : String) (now1 now2 : Nat)
    (hb1 : ¬ pyStrip m1 = "") (hg1 : is_greeting m1 = false) (ht1 : is_thanks m1 = false)
    (hb2 : ¬ pyStrip m2 = "") (hg2 : is_greeting m2 = false) (ht2 : is_thanks m2 = false)
    (hu : u1 ≠ u2) :
    ∃ s1 r1, process_message o now1 u1 m1 ManagerState.initial = Except.ok (s1, r1) ∧
      ∃ s2 r2, process_message o now2 u2 m2 s1 = Except.ok (s2, r2) ∧
      ∃ sB rB, process_message o now2 u2 m2 ManagerState.initial = Except.ok (sB, rB) ∧
      ∃ p2, r2.prompt = some p2 ∧ substrB m1 p2 = true ∧ r2.prompt ≠ rB.prompt := by
  obtain ⟨s1, r1, h1, hp1, hh1, hk1⟩ :=
    process_message_gen o now1 u1 m1 ManagerState.initial hb1 hg1 ht1
      (by simp [ManagerState.initial, alookup])
  have hh1' : s1.chatHistory =
      [HMsg.mk "user" m1, HMsg.mk "assistant" (call_gemini o m1 [HMsg.mk "user" m1]).1] := by
    simpa [ManagerState.initial] using hh1
  have hk1' : s1.contexts.map Prod.fst = [u1] := by
    simpa [ManagerState.initial, alookup] using hk1
  have hlk : alookup u2 s1.contexts = none := by
    apply alookup_none_of_keys
    rw [hk1']
    simpa using fun h => hu h.symm
  have hlen1 : s1.contexts.length = 1 := by
    have := congrArg List.length hk1'
    simpa using this
  obtain ⟨s2, r2, h2, hp2, hh2, hk2⟩ :=
    process_message_gen o now2 u2 m2 s1 hb2 hg2 ht2 (by simp [hlk, hlen1])
  obtain ⟨sB, rB, hB, hpB, hhB, hkB⟩ :=
    process_message_gen o now2 u2 m2 ManagerState.initial hb2 hg2 ht2
      (by simp [ManagerState.initial, alookup])
  refine ⟨s1, r1, h1, s2, r2, h2, sB, rB, hB,
    buildPrompt m2 (s1.chatHistory ++ [HMsg.mk "user" m2]), hp2, ?_, ?_⟩
  · rw [hh1']
    unfold substrB buildPrompt
    simp only [List.cons_append, List.nil_append, pySliceLast, List.length_cons,
      List.length_nil, histLines, String.data_append]
    norm_num
    apply strFind_append_of_right
    apply strFind_cons_of
    apply strFind_cons_of
    apply strFind_cons_of
    apply strFind_cons_of
    apply strFind_cons_of
    apply strFind_cons_of
    apply strFind_cons_of
    apply strFind_cons_of
    exact strFind_self_append _ _
  · rw [hp2, hpB, hh1']
    intro hEq
    have hEq' := Option.some.inj hEq
    have hlenEq := congrArg (fun t : String => t.data.length) hEq'
    simp only [buildPrompt, histLines, pySliceLast, ManagerState.initial,
      List.cons_append, List.nil_append, List.length_cons, List.length_nil,
      String.data_append, List.length_append, List.append_nil] at hlenEq
    omega

/-- C9, witness: the cross-user leak at concrete users and messages. -/
theorem C9_witness :
    ∃ s1 r1, process_message o0 1 "alice" "je cherche un emploi" ManagerState.initial
        = Except.ok (s1, r1) ∧
      ∃ s2 r2, process_message o0 2 "bob" "quelles formations suivre" s1
          = Except.ok (s2, r2) ∧
      ∃ sB rB, process_message o0 2 "bob" "quelles formations suivre" ManagerState.initial
          = Except.ok (sB, rB) ∧
      ∃ p2, r2.prompt = some p2 ∧ substrB "je cherche un emploi" p2 = true ∧
        r2.prompt ≠ rB.prompt :=
  C9_shared_history o0 "alice" "bob" "je cherche un emploi" "quelles formations suivre" 1 2
    (by decide) (by decide) (by decide) (by decide) (by decide) (by decide) (by decide)

end SkyHire
